import Mathlib

/-!
Shallow embedding of the `mcp-math-servers` repository and proofs about it.

Conventions used throughout this development:

* Python floats are modelled as rationals (`ℚ`); the claims under study are about
  control flow, error classification and exact arithmetic identities, not about
  IEEE-754 rounding.  Where Python produces `float("inf")` we use an explicit
  extended value type.
* Python exceptions are modelled with `Except`: each `raise` site in the source
  is mapped to a constructor of an error type named after the design document's
  error taxonomy (`InvalidArgument` for the `ValueError` raised on a zero
  divisor, `NotExecutable` for `fastmcp.exceptions.DisabledError`, and so on).
* External collaborators (the `json` module's decoder, the remote OpenAI
  gateway) are supplied as explicit parameters: a decoder function, or the raw
  text the gateway would return.  Everything written in the repository itself is
  translated directly from the source.
* String formatting of numeric values (Python `str(float)` / f-strings) is
  abstracted to Lean's `toString`; no claim under study inspects the digits of a
  formatted number.
-/

namespace MCPMath

/-- Single-quote character, used when assembling the repository's error
messages, which quote tool and server names. -/
def sq : String := String.singleton (Char.ofNat 39)

/-- Backquote character (used by `_parse_decision` when stripping fenced code
blocks). -/
def backquote : Char := Char.ofNat 96

/-- Does the first character list occur as a prefix of the second?  Helper for
the substring tests the source performs with Python's `in` operator. -/
def startsWithSeq : List Char → List Char → Bool
| [], _ => true
| _ :: _, [] => false
| a :: as, b :: bs => a == b && startsWithSeq as bs

/-- Does the first character list occur contiguously anywhere inside the
second?  Mirrors Python's `needle in haystack` test on strings. -/
def containsSeq (needle : List Char) : List Char → Bool
| [] => needle.isEmpty
| c :: rest => startsWithSeq needle (c :: rest) || containsSeq needle rest

/-- String-level wrapper around `containsSeq`. -/
def containsStr (needle haystack : String) : Bool :=
  containsSeq needle.toList haystack.toList

/-- Python `str.lower` restricted to the ASCII range used by this repository. -/
def pyLower (s : String) : String := String.mk (s.toList.map Char.toLower)

/-- Errors raised by the arithmetic `_compute` helpers of
`data_provider.py` and `prompt_helper.py`.  `invalidArgument` is the design
document's name for the `ValueError` raised on a zero divisor,
`unsupportedOperation` for the `ValueError` raised on an unknown operation
slug, and `keyError` models a missing key in the `inputs` mapping. -/
inductive CompErr where
| invalidArgument (msg : String)
| unsupportedOperation (msg : String)
| keyError (key : String)
deriving DecidableEq

/-- Message of the `ValueError` raised by both `_compute` functions on a zero
divisor. -/
def divisorMsg : String := "Divisor must be non-zero."

/-- Access `inputs[key]`, modelling Python's `KeyError` on absence. -/
def getKey (inputs : List (String × ℚ)) (key : String) : Except CompErr ℚ :=
  match inputs.lookup key with
  | some v => .ok v
  | none => .error (.keyError key)

namespace DataProvider

/-- Structured payload `MathResult` returned by every tool of the
data-providing server (`data_provider.py`). -/
structure MathResult where
  operation : String
  inputs : List (String × ℚ)
  result : ℚ
deriving DecidableEq

/-- Translation of `data_provider._compute`: dispatch on the operation slug,
with the zero-divisor check performed before the division. -/
def compute (operation : String) (inputs : List (String × ℚ)) : Except CompErr ℚ :=
  if operation = ("addition") then do
    let a ← getKey inputs ("augend")
    let b ← getKey inputs ("addend")
    pure (a + b)
  else if operation = ("subtraction") then do
    let a ← getKey inputs ("minuend")
    let b ← getKey inputs ("subtrahend")
    pure (a - b)
  else if operation = ("multiplication") then do
    let a ← getKey inputs ("multiplicand")
    let b ← getKey inputs ("multiplier")
    pure (a * b)
  else if operation = ("division") then do
    let divisor ← getKey inputs ("divisor")
    if divisor = 0 then
      Except.error (.invalidArgument divisorMsg)
    else do
      let dividend ← getKey inputs ("dividend")
      pure (dividend / divisor)
  else
    Except.error (.unsupportedOperation ("Unsupported operation: " ++ operation))

/-- Translation of `data_provider._response`: wrap the computed value in a
`MathResult` record. -/
def response (operation : String) (inputs : List (String × ℚ)) :
    Except CompErr MathResult :=
  (compute operation inputs).map (fun r => ⟨operation, inputs, r⟩)

/-- Tool `math_add` of the data-providing server. -/
def mathAdd (augend addend : ℚ) : Except CompErr MathResult :=
  response ("addition") [(("augend"), augend), (("addend"), addend)]

/-- Tool `math_subtract` of the data-providing server. -/
def mathSubtract (minuend subtrahend : ℚ) : Except CompErr MathResult :=
  response ("subtraction") [(("minuend"), minuend), (("subtrahend"), subtrahend)]

/-- Tool `math_multiply` of the data-providing server. -/
def mathMultiply (multiplicand multiplier : ℚ) : Except CompErr MathResult :=
  response ("multiplication") [(("multiplicand"), multiplicand), (("multiplier"), multiplier)]

/-- Tool `math_divide` of the data-providing server. -/
def mathDivide (dividend divisor : ℚ) : Except CompErr MathResult :=
  response ("division") [(("dividend"), dividend), (("divisor"), divisor)]

end DataProvider

namespace PromptHelper

/-- Structured payload `PromptedResult` returned by every tool of the
prompt-returning server (`prompt_helper.py`). -/
structure PromptedResult where
  operation : String
  inputs : List (String × ℚ)
  result : ℚ
  nextPrompt : String
deriving DecidableEq

/-- Translation of `prompt_helper._build_prompt`; the numeric and mapping
formatting of the f-string is abstracted to `toString`. -/
def buildPrompt (operation : String) (payload : List (String × ℚ)) (answer : ℚ) : String :=
  "The " ++ operation ++ " result is " ++ toString answer ++ ". Inputs: " ++
    toString payload ++ ". " ++
    "Incorporate this numeric value into your next reasoning step. " ++
    "If the user asked a follow-up, restate the interpreted question before responding."

/-- Translation of `prompt_helper._compute` (textually identical to the
data-providing variant's `_compute`). -/
def compute (operation : String) (inputs : List (String × ℚ)) : Except CompErr ℚ :=
  if operation = ("addition") then do
    let a ← getKey inputs ("augend")
    let b ← getKey inputs ("addend")
    pure (a + b)
  else if operation = ("subtraction") then do
    let a ← getKey inputs ("minuend")
    let b ← getKey inputs ("subtrahend")
    pure (a - b)
  else if operation = ("multiplication") then do
    let a ← getKey inputs ("multiplicand")
    let b ← getKey inputs ("multiplier")
    pure (a * b)
  else if operation = ("division") then do
    let divisor ← getKey inputs ("divisor")
    if divisor = 0 then
      Except.error (.invalidArgument divisorMsg)
    else do
      let dividend ← getKey inputs ("dividend")
      pure (dividend / divisor)
  else
    Except.error (.unsupportedOperation ("Unsupported operation: " ++ operation))

/-- Translation of `prompt_helper._structure`: run the operation and pair the
result with the follow-up prompt. -/
def structure_ (operation : String) (inputs : List (String × ℚ)) :
    Except CompErr PromptedResult :=
  (compute operation inputs).map
    (fun r => ⟨operation, inputs, r, buildPrompt operation inputs r⟩)

/-- Tool `math_add_with_prompt` of the prompt-returning server. -/
def mathAddWithPrompt (augend addend : ℚ) : Except CompErr PromptedResult :=
  structure_ ("addition") [(("augend"), augend), (("addend"), addend)]

/-- Tool `math_subtract_with_prompt` of the prompt-returning server. -/
def mathSubtractWithPrompt (minuend subtrahend : ℚ) : Except CompErr PromptedResult :=
  structure_ ("subtraction") [(("minuend"), minuend), (("subtrahend"), subtrahend)]

/-- Tool `math_multiply_with_prompt` of the prompt-returning server. -/
def mathMultiplyWithPrompt (multiplicand multiplier : ℚ) : Except CompErr PromptedResult :=
  structure_ ("multiplication") [(("multiplicand"), multiplicand), (("multiplier"), multiplier)]

/-- Tool `math_divide_with_prompt` of the prompt-returning server. -/
def mathDivideWithPrompt (dividend divisor : ℚ) : Except CompErr PromptedResult :=
  structure_ ("division") [(("dividend"), dividend), (("divisor"), divisor)]

end PromptHelper

namespace Capability

/-- Error raised by every tool of the capability-only server.  The design
document calls `fastmcp.exceptions.DisabledError` by the taxonomy name
`NotExecutable`. -/
inductive CapErr where
| notExecutable (msg : String)
deriving DecidableEq

/-- Translation of `capability_discovery._EXECUTION_REDIRECT` with its
`{tool_name}` placeholder applied. -/
def executionRedirect (toolName : String) : String :=
  "This server only exposes tool metadata for educational purposes. " ++
    "Use the math-data-provider server to actually execute " ++ sq ++ toolName ++ sq ++ "."

/-- Translation of `capability_discovery._raise_capability_only`: every call
raises `DisabledError` with the redirect message. -/
def raiseCapabilityOnly (toolName : String) : Except CapErr ℚ :=
  .error (.notExecutable (executionRedirect toolName))

/-- Tool `math_add` of the capability-only server: raises before returning. -/
def mathAdd (augend addend : ℚ) : Except CapErr ℚ :=
  raiseCapabilityOnly ("math_add")

/-- Tool `math_subtract` of the capability-only server. -/
def mathSubtract (minuend subtrahend : ℚ) : Except CapErr ℚ :=
  raiseCapabilityOnly ("math_subtract")

/-- Tool `math_multiply` of the capability-only server. -/
def mathMultiply (multiplicand multiplier : ℚ) : Except CapErr ℚ :=
  raiseCapabilityOnly ("math_multiply")

/-- Tool `math_divide` of the capability-only server. -/
def mathDivide (dividend divisor : ℚ) : Except CapErr ℚ :=
  raiseCapabilityOnly ("math_divide")

end Capability

namespace Autonomous

/-- Value domain of the fallback reasoner: Python floats restricted to the
values this code can produce — finite numbers (modelled exactly as rationals)
and the positive infinity produced by `float("inf")` on a zero divisor. -/
inductive FVal where
| fin (q : ℚ)
| posInf
deriving DecidableEq

/-- Operation shared by the table entries `add`, `plus` and `sum`. -/
def addFn : ℚ → ℚ → FVal := fun a b => .fin (a + b)

/-- Operation shared by the table entries `subtract`, `minus` and
`difference`. -/
def subFn : ℚ → ℚ → FVal := fun a b => .fin (a - b)

/-- Operation shared by the table entries `multiply`, `times` and
`product`. -/
def mulFn : ℚ → ℚ → FVal := fun a b => .fin (a * b)

/-- Operation shared by the table entries `divide` and `quotient`:
`a / b if b != 0 else float("inf")`. -/
def divFn : ℚ → ℚ → FVal := fun a b => if b = 0 then .posInf else .fin (a / b)

/-- Translation of `operation_map` in `_fallback_reasoner`, in source
declaration order (Python dicts iterate in insertion order). -/
def opTable : List (String × (ℚ → ℚ → FVal)) :=
  [(("add"), addFn), (("plus"), addFn), (("sum"), addFn),
   (("subtract"), subFn), (("minus"), subFn), (("difference"), subFn),
   (("multiply"), mulFn), (("times"), mulFn), (("product"), mulFn),
   (("divide"), divFn), (("quotient"), divFn)]

/-- Token produced by one match of the numeric-literal pattern
`-?\d+(?:\.\d+)?`. -/
structure NumTok where
  neg : Bool
  intPart : List Char
  fracPart : List Char
deriving DecidableEq

/-- Match the unsigned part `\d+(?:\.\d+)?` at the head of `cs`, returning the
token and the unconsumed remainder (greedy, as the regex quantifiers are). -/
def matchUnsigned (cs : List Char) : Option (NumTok × List Char) :=
  let ds := cs.takeWhile Char.isDigit
  if ds.isEmpty then none
  else
    let rest := cs.dropWhile Char.isDigit
    match rest with
    | c :: r2 =>
      if c == ('.' : Char) then
        let fs := r2.takeWhile Char.isDigit
        if fs.isEmpty then some (⟨false, ds, []⟩, rest)
        else some (⟨false, ds, fs⟩, r2.dropWhile Char.isDigit)
      else some (⟨false, ds, []⟩, rest)
    | [] => some (⟨false, ds, []⟩, [])

/-- Match `-?\d+(?:\.\d+)?` anchored at the head of `cs`.  A leading minus sign
participates only when a digit follows it (otherwise the regex engine
backtracks and the position fails). -/
def matchNumAt (cs : List Char) : Option (NumTok × List Char) :=
  match cs with
  | c :: rest =>
    if c == ('-' : Char) then
      match matchUnsigned rest with
      | some (t, r) => some ({ t with neg := true }, r)
      | none => none
    else matchUnsigned cs
  | [] => none

/-- Left-to-right non-overlapping scan of `re.findall`, fuelled by the input
length (each step either consumes the match or advances one character, so the
initial fuel always suffices). -/
def scanAux : Nat → List Char → List NumTok
| 0, _ => []
| _, [] => []
| Nat.succ fuel, c :: cs =>
  match matchNumAt (c :: cs) with
  | some (t, rest) => t :: scanAux fuel rest
  | none => scanAux fuel cs

/-- All numeric tokens of a character list, in text order. -/
def scanNums (cs : List Char) : List NumTok := scanAux cs.length cs

/-- Value of a decimal digit list. -/
def digitsToNat (ds : List Char) : Nat :=
  ds.foldl (fun n c => 10 * n + (c.toNat - 48)) 0

/-- Numeric value of a token; Python's `float()` conversion is modelled as the
exact rational value of the decimal literal. -/
def tokVal (t : NumTok) : ℚ :=
  let mag : ℚ :=
    (digitsToNat t.intPart : ℚ) + (digitsToNat t.fracPart : ℚ) / ((10 : ℚ) ^ t.fracPart.length)
  if t.neg then -mag else mag

/-- Translation of `[float(value) for value in re.findall(r..., problem)]`. -/
def extractNumbers (problem : String) : List ℚ :=
  (scanNums problem.toList).map tokVal

/-- Characters of `problem.lower()`. -/
def lowerChars (problem : String) : List Char :=
  problem.toList.map Char.toLower

/-- First table entry whose keyword occurs in the lowered problem text —
the `for keyword, fn in operation_map.items(): if keyword in lowered: ...
break` loop. -/
def matchedKeyword (lowered : List Char) : Option (String × (ℚ → ℚ → FVal)) :=
  opTable.find? (fun kv => containsSeq kv.1.toList lowered)

/-- Observable outcome of `_fallback_reasoner`: the identified operation (the
keyword, or `"analysis"` when none matched), the computed value (`None` when
fewer than two numbers or no keyword matched — reported as "Unable to
determine answer."), and the constant `model` and `source` tags.  The
f-string rendering of the reasoning steps and of `str(final_answer)` is
abstracted to these underlying values. -/
structure FallbackOut where
  operation : String
  result : Option FVal
  model : String
  source : String
deriving DecidableEq

/-- Core of `_fallback_reasoner`: the `if len(numbers) >= 2` guard and the
first-match keyword loop, applied to the first two extracted numbers. -/
def fallbackCore (numbers : List ℚ) (lowered : List Char) : String × Option FVal :=
  match numbers with
  | n0 :: n1 :: _ =>
    match matchedKeyword lowered with
    | some kv => (kv.1, some (kv.2 n0 n1))
    | none => (("analysis"), none)
  | _ => (("analysis"), none)

/-- Translation of `_fallback_reasoner`. -/
def fallbackReasoner (problem : String) : FallbackOut :=
  let c := fallbackCore (extractNumbers problem) (lowerChars problem)
  ⟨c.1, c.2, ("heuristic-fallback"), ("fallback")⟩

end Autonomous

namespace Planner

/-- JSON argument objects forwarded to tools, modelled as opaque key/value
pairs; no claim under study inspects their contents. -/
abbrev Args : Type := List (String × String)

/-- Fields the `json` decoder delivers for a planner response: the four
`data.get(...)` lookups of `_parse_decision` (each `None` when absent). -/
structure DecisionFields where
  action : Option String
  message : Option String
  toolName : Option String
  arguments : Option Args
deriving DecidableEq

/-- Translation of the `PlannerDecision` dataclass. -/
structure PlannerDecision where
  action : Option String
  message : Option String
  toolName : Option String
  arguments : Option Args
  rawResponse : String
deriving DecidableEq

/-- Failure modes of `MCPPlanner`.  In the source every site raises the single
class `PlannerError`; following the design document's taxonomy the raise site
in `_parse_decision` (message `Planner response was not valid JSON: ...`,
carrying the raw response text) is given its own constructor `malformed`
(`MalformedPlannerResponse`), and every other raise site maps to
`plannerError` with the raised message. -/
inductive PlannerErr where
| malformed (raw : String)
| plannerError (msg : String)
deriving DecidableEq

/-- Result object returned by `tool.run`: an optional structured payload plus
raw content, both modelled as opaque strings. -/
structure ToolRunResult where
  structuredContent : Option String
  content : String
deriving DecidableEq

/-- A registered tool's `run` method.  Tools of this repository are total;
exceptions a tool might raise are outside the claims under study. -/
abbrev Tool : Type := Args → ToolRunResult

/-- Translation of the `PlannerResult` dataclass. -/
structure PlannerResult where
  message : String
  toolName : Option String
  arguments : Option Args
  toolResult : Option String
  rawResponse : Option String
deriving DecidableEq

/-- Characters Python's `str.strip()` removes. -/
def pyWhitespace (c : Char) : Bool :=
  c == (' ' : Char) || c == ('\t' : Char) || c == ('\n' : Char) || c == ('\r' : Char) ||
    c.toNat == 11 || c.toNat == 12

/-- Remove characters satisfying `p` from both ends, as Python's `strip`
does. -/
def stripWhile (p : Char → Bool) (cs : List Char) : List Char :=
  ((cs.dropWhile p).reverse.dropWhile p).reverse

/-- Python `content.strip()`. -/
def pyStrip (s : String) : String := String.mk (stripWhile pyWhitespace s.toList)

/-- Translation of the sanitizing steps of `_parse_decision`: strip
whitespace; when the text starts with a triple-backtick fence, strip all
leading and trailing backticks and then a leading `json` language tag. -/
def sanitizeContent (content : String) : String :=
  let sanitized := pyStrip content
  if startsWithSeq [backquote, backquote, backquote] sanitized.toList then
    let s2 := String.mk (stripWhile (fun c => c == backquote) sanitized.toList)
    if startsWithSeq (("json").toList) s2.toList then String.mk (s2.toList.drop 4)
    else s2
  else sanitized

/-- Translation of `_parse_decision`, parameterized by the external `json`
decoder (`none` models `json.JSONDecodeError`). -/
def parseDecision (decode : String → Option DecisionFields) (content : String) :
    Except PlannerErr PlannerDecision :=
  match decode (sanitizeContent content) with
  | none => .error (.malformed content)
  | some f => .ok ⟨f.action, f.message, f.toolName, f.arguments, content⟩

/-- Python truthiness of an optional string: falsy when `None` or empty. -/
def optStrFalsy : Option String → Bool
| none => true
| some s => s.isEmpty

/-- Message of the `PlannerError` raised on `respond` without a message. -/
def respondNoMsg : String :=
  "Planner returned action " ++ sq ++ "respond" ++ sq ++ " without a message."

/-- Message of the `PlannerError` raised on `call_tool` without name or
arguments. -/
def toolCallIncompleteMsg : String :=
  "Planner requested a tool call but did not provide name or arguments."

/-- Message of the `PlannerError` raised on a tool name outside the
registry. -/
def unknownToolMsg (tn : String) : String :=
  "Planner referenced unknown tool " ++ sq ++ tn ++ sq ++ "."

/-- Message of the `PlannerError` raised when the summarize round does not
produce `respond` with a message. -/
def summaryFailMsg : String :=
  "Planner failed to provide a final response after tool execution."

/-- Rendering of `decision.action` inside the unknown-action message
(Python formats `None` as the text `None`). -/
def actionRepr : Option String → String
| none => "None"
| some s => s

/-- Message of the `PlannerError` raised on an unknown action. -/
def unknownActionMsg (a : Option String) : String :=
  "Unknown planner action " ++ sq ++ actionRepr a ++ sq ++ "."

/-- Translation of `MCPPlanner.run` together with the summarize round of
`_summarize_with_tool`.  The two gateway exchanges are modelled by the texts
they return (`firstText` for the decision round, `sumText` for the summarize
round); alongside the Python return value / raised error, the function
returns the list of tool invocations it performed, in order — the `tool.run`
call site appends to this trace. -/
def runPlanner (decode : String → Option DecisionFields) (tools : List (String × Tool))
    (firstText sumText : String) :
    Except PlannerErr PlannerResult × List (String × Args) :=
  match parseDecision decode firstText with
  | .error e => (.error e, [])
  | .ok d =>
    if d.action = some ("respond") then
      if optStrFalsy d.message then (.error (.plannerError respondNoMsg), [])
      else (.ok ⟨d.message.getD (""), none, none, none, some d.rawResponse⟩, [])
    else if d.action = some ("call_tool") then
      if optStrFalsy d.toolName || d.arguments.isNone then
        (.error (.plannerError toolCallIncompleteMsg), [])
      else
        match d.toolName, d.arguments with
        | some tn, some args =>
          match tools.lookup tn with
          | none => (.error (.plannerError (unknownToolMsg tn)), [])
          | some tool =>
            let tr := tool args
            let payload := tr.structuredContent.getD tr.content
            match parseDecision decode sumText with
            | .error e => (.error e, [(tn, args)])
            | .ok d2 =>
              if d2.action = some ("respond") ∧ optStrFalsy d2.message = false then
                (.ok ⟨d2.message.getD (""), some tn, some args, some payload,
                  some d2.rawResponse⟩, [(tn, args)])
              else (.error (.plannerError summaryFailMsg), [(tn, args)])
        | _, _ => (.error (.plannerError toolCallIncompleteMsg), [])
    else (.error (.plannerError (unknownActionMsg d.action)), [])

/-- Decoder fixture for the closed planner instances below: the sanitized text
`CALL` decodes to a `call_tool` decision naming tool `t` with empty arguments;
everything else fails to decode. -/
def wDecode : String → Option DecisionFields :=
  fun s => if s = ("CALL") then some ⟨some ("call_tool"), none, some ("t"), some []⟩ else none

/-- Registry fixture holding the single tool `t`. -/
def wTools : List (String × Tool) := [(("t"), fun _ => ⟨none, ("ok")⟩)]

end Planner

namespace Autonomous

/-- Fields the `json` decoder delivers for a gateway reasoning reply: the
`parsed.get("reasoning_steps")` and `parsed.get("final_answer")` lookups of
`_chat_completion` (each `None` when absent or JSON null). -/
structure GatewayParsed where
  reasoningSteps : Option (List String)
  finalAnswer : Option String
deriving DecidableEq

/-- Dictionary returned by `_chat_completion` (and mimicked by the fallback):
reasoning steps, final answer, model and source tags. -/
structure ReasonPayload where
  reasoningSteps : List String
  finalAnswer : String
  model : String
  source : String
deriving DecidableEq

/-- Outcome of `json.loads` on the gateway's reply text, as `_chat_completion`
can observe it: `decodeError` models a raised `json.JSONDecodeError` (the
`except` branch wraps the raw text), `object` a successful parse to a
dictionary (with its two `get` lookups), and `nonObject` a successful parse to
a non-dictionary value such as `4` — on which the subsequent
`parsed.get("reasoning_steps")` raises `AttributeError`. -/
inductive JsonOutcome where
| decodeError
| nonObject
| object (g : GatewayParsed)
deriving DecidableEq

/-- Is this the non-dictionary parse outcome? -/
def isNonObject : JsonOutcome → Bool
| .nonObject => true
| _ => false

/-- Exception escaping `_chat_completion` after a successful request: the
`AttributeError` raised by `parsed.get(...)` when `json.loads` produced a
non-dictionary. -/
inductive ChatErr where
| attributeError
deriving DecidableEq

/-- Assembly of the `_chat_completion` result dictionary from the parsed
fields: apply the `or` fallback for empty or missing steps and the
`reasoning_steps[-1]` default for a missing final answer; tag the result with
source `openai`. -/
def assemblePayload (parsed : GatewayParsed) (model : String) : ReasonPayload :=
  let steps : List String :=
    match parsed.reasoningSteps with
    | some (s :: rest) => s :: rest
    | _ => [parsed.finalAnswer.getD ("Unknown")]
  let finalAnswer : String :=
    match parsed.finalAnswer with
    | some s => s
    | none => steps.getLastD ("")
  ⟨steps, finalAnswer, model, ("openai")⟩

/-- Post-processing of `_chat_completion` applied to the gateway's raw reply
text: on `json.JSONDecodeError` wrap the stripped raw text as both the single
reasoning step and the final answer; on a successful parse to a dictionary
assemble the result from its fields; on a successful parse to a
non-dictionary fail with the `AttributeError` that `parsed.get` raises. -/
def chatCompletionPost (decode : String → JsonOutcome) (model raw : String) :
    Except ChatErr ReasonPayload :=
  match decode raw with
  | .nonObject => .error .attributeError
  | .decodeError =>
    .ok (assemblePayload ⟨some [Planner.pyStrip raw], some (Planner.pyStrip raw)⟩ model)
  | .object pr => .ok (assemblePayload pr model)

/-- Outcome of `_run_reasoning`: either the gateway's dictionary or the
fallback reasoner's. -/
inductive ReasonOutcome where
| remote (r : ReasonPayload)
| heuristic (f : FallbackOut)
deriving DecidableEq

/-- The `source` tag of either outcome — the field `solve_math_problem` copies
into the `AutonomousResult` record it returns. -/
def outcomeSource : ReasonOutcome → String
| .remote r => r.source
| .heuristic f => f.source

/-- Translation of `_run_reasoning`, parameterized by whether the OpenAI
client can be built (`credential`: the `OPENAI_API_KEY` check of
`_build_client`) and by the gateway exchange (`none` models an exception
raised by the network call itself, `some raw` a completed request with reply
text `raw`).  The `except Exception` around `_chat_completion` also catches
the `AttributeError` raised during post-processing of a valid-JSON
non-dictionary reply, routing it to the fallback reasoner. -/
def runReasoning (credential : Bool) (gatewayReply : Option String)
    (decode : String → JsonOutcome) (model problem : String) : ReasonOutcome :=
  if credential then
    match gatewayReply with
    | some raw =>
      match chatCompletionPost decode model raw with
      | .ok r => .remote r
      | .error _ => .heuristic (fallbackReasoner problem)
    | none => .heuristic (fallbackReasoner problem)
  else .heuristic (fallbackReasoner problem)

end Autonomous

namespace Servers

/-- Translation of the `ServerBlueprint` dataclass of `servers/__init__.py`.
The `factory` field (a function building the FastMCP server) is omitted: the
lookup claims under study identify a blueprint by the record itself. -/
structure ServerBlueprint where
  name : String
  category : String
  summary : String
  aliases : List String
deriving DecidableEq

/-- Blueprint of the capability-only server. -/
def capabilityBlueprint : ServerBlueprint :=
  ⟨("math-capability-registry"), ("Capability Discovery / Tool Registration"),
   ("Advertises math tools without executing them, ideal for capability discovery."),
   [("capability"), ("discovery")]⟩

/-- Blueprint of the data-providing server. -/
def dataBlueprint : ServerBlueprint :=
  ⟨("math-data-provider"), ("Data-Providing / Context-Enriching"),
   ("Executes math operations and returns structured JSON payloads."),
   [("data"), ("provider")]⟩

/-- Blueprint of the prompt-returning server. -/
def promptBlueprint : ServerBlueprint :=
  ⟨("math-prompt-helper"), ("Prompt-Returning / Co-Reasoning"),
   ("Pairs math data with a suggested follow-up prompt for co-reasoning."),
   [("prompt"), ("co-reasoning")]⟩

/-- Blueprint of the autonomous reasoning server. -/
def autonomousBlueprint : ServerBlueprint :=
  ⟨("math-autonomous-reasoner"), ("Autonomous / Server-Side Reasoning"),
   ("Delegates math problem solving to an internal OpenAI call."),
   [("autonomous"), ("reasoner")]⟩

/-- Translation of `_SERVER_BLUEPRINTS`, in declaration order. -/
def serverBlueprints : List ServerBlueprint :=
  [capabilityBlueprint, dataBlueprint, promptBlueprint, autonomousBlueprint]

/-- Insert a key only when absent — Python's `dict.setdefault` (first
registrant wins). -/
def insertIfAbsent (idx : List (String × ServerBlueprint)) (key : String)
    (bp : ServerBlueprint) : List (String × ServerBlueprint) :=
  if (idx.lookup key).isSome then idx else idx ++ [(key, bp)]

/-- Translation of `_BLUEPRINT_INDEX`: lowered names first (dict
comprehension), then each alias added with `setdefault`, so a name is never
shadowed by an alias. -/
def blueprintIndex : List (String × ServerBlueprint) :=
  serverBlueprints.foldl
    (fun acc b => b.aliases.foldl (fun acc2 a => insertIfAbsent acc2 (pyLower a) b) acc)
    (serverBlueprints.map (fun b => (pyLower b.name, b)))

/-- Lexicographic comparison of character lists by code point — Python's
string ordering for the keys at hand. -/
def charListLt : List Char → List Char → Bool
| [], [] => false
| [], _ :: _ => true
| _ :: _, [] => false
| a :: as, b :: bs =>
  if a.toNat < b.toNat then true
  else if b.toNat < a.toNat then false
  else charListLt as bs

/-- Insert a string into an ascending list. -/
def insSorted (s : String) : List String → List String
| [] => [s]
| t :: ts => if charListLt t.toList s.toList then t :: insSorted s ts else s :: t :: ts

/-- Python's `sorted` on the index keys. -/
def sortKeys (l : List String) : List String := l.foldr insSorted []

/-- The `", ".join(sorted(_BLUEPRINT_INDEX))` listing embedded in the lookup
error. -/
def availableListing : String :=
  String.intercalate (", ") (sortKeys (blueprintIndex.map Prod.fst))

/-- Message of the `KeyError` raised by `get_blueprint` on an unknown key. -/
def keyErrorMsg (key : String) : String :=
  "Unknown server " ++ sq ++ key ++ sq ++ ". Available: " ++ availableListing

/-- Translation of `get_blueprint`: lowercase the key, look it up, and raise
`KeyError` with the listing of available keys when absent. -/
def getBlueprint (key : String) : Except String ServerBlueprint :=
  match blueprintIndex.lookup (pyLower key) with
  | none => .error (keyErrorMsg key)
  | some bp => .ok bp

end Servers

namespace Planner

/-- Unfolding lemma: an absent optional string is falsy. -/
theorem optStrFalsy_none : optStrFalsy none = true := rfl

/-- Unfolding lemma: a present optional string is falsy exactly when it is
empty. -/
theorem optStrFalsy_some (s : String) : optStrFalsy (some s) = s.isEmpty := rfl

end Planner

namespace Autonomous

/-- Keys of the operation table are distinct, so a table entry is recovered
from its key by `lookup`. -/
theorem opTable_lookup_of_mem (kv : String × (ℚ → ℚ → FVal)) (h : kv ∈ opTable) :
    opTable.lookup kv.1 = some kv.2 := by
  simp only [opTable, List.mem_cons, List.not_mem_nil, or_false] at h
  rcases h with rfl|rfl|rfl|rfl|rfl|rfl|rfl|rfl|rfl|rfl|rfl <;> rfl

/-- A table entry keyed `divide` or `quotient` carries the division
operation. -/
theorem opTable_div_fn (kv : String × (ℚ → ℚ → FVal)) (hmem : kv ∈ opTable)
    (h : kv.1 = ("divide") ∨ kv.1 = ("quotient")) : kv.2 = divFn := by
  simp only [opTable, List.mem_cons, List.not_mem_nil, or_false] at hmem
  rcases hmem with rfl|rfl|rfl|rfl|rfl|rfl|rfl|rfl|rfl|rfl|rfl <;> simp_all

end Autonomous

/-- C5: for all numeric pairs, the data-providing `math_divide` and the
prompt-returning `math_divide_with_prompt` both return `a / b` when `b ≠ 0`,
and both fail with `InvalidArgument` (the `ValueError` on a zero divisor)
returning no result when `b = 0`. -/
theorem divide_zero_invalid_argument (a b : ℚ) :
    (DataProvider.mathDivide a b).map DataProvider.MathResult.result =
      (if b = 0 then Except.error (CompErr.invalidArgument divisorMsg) else Except.ok (a / b)) ∧
    (PromptHelper.mathDivideWithPrompt a b).map PromptHelper.PromptedResult.result =
      (if b = 0 then Except.error (CompErr.invalidArgument divisorMsg) else Except.ok (a / b)) := by
  by_cases hb : b = 0 <;>
    simp [DataProvider.mathDivide, DataProvider.response, DataProvider.compute,
      PromptHelper.mathDivideWithPrompt, PromptHelper.structure_, PromptHelper.compute,
      getKey, hb, List.lookup, Except.map, Except.bind, bind, pure, Except.pure]

/-- C8: each of the four tools of the capability-only server fails with
`NotExecutable` for all argument values, carrying the redirect message, which
names both the data-providing server and the invoked tool; no tool ever
returns a value. -/
theorem capability_tools_not_executable (a b : ℚ) :
    Capability.mathAdd a b =
      Except.error (.notExecutable (Capability.executionRedirect ("math_add"))) ∧
    Capability.mathSubtract a b =
      Except.error (.notExecutable (Capability.executionRedirect ("math_subtract"))) ∧
    Capability.mathMultiply a b =
      Except.error (.notExecutable (Capability.executionRedirect ("math_multiply"))) ∧
    Capability.mathDivide a b =
      Except.error (.notExecutable (Capability.executionRedirect ("math_divide"))) ∧
    containsStr ("math-data-provider") (Capability.executionRedirect ("math_add")) = true ∧
    containsStr ("math-data-provider") (Capability.executionRedirect ("math_subtract")) = true ∧
    containsStr ("math-data-provider") (Capability.executionRedirect ("math_multiply")) = true ∧
    containsStr ("math-data-provider") (Capability.executionRedirect ("math_divide")) = true ∧
    containsStr ("math_add") (Capability.executionRedirect ("math_add")) = true ∧
    containsStr ("math_subtract") (Capability.executionRedirect ("math_subtract")) = true ∧
    containsStr ("math_multiply") (Capability.executionRedirect ("math_multiply")) = true ∧
    containsStr ("math_divide") (Capability.executionRedirect ("math_divide")) = true := by
  refine ⟨rfl, rfl, rfl, rfl, ?_, ?_, ?_, ?_, ?_, ?_, ?_, ?_⟩ <;> decide


/-- C1: on every `run` in which a tool was invoked (the invocation trace is
non-empty), the summarize-round decision must be `respond` with a non-empty
message; any other parsed decision — in particular a second `call_tool` —
makes `run` fail with `PlannerError`, and in every case at most one tool
invocation occurs per `run` call. -/
theorem planner_second_decision_must_respond (decode : String → Option Planner.DecisionFields)
    (tools : List (String × Planner.Tool)) (t1 t2 : String) :
    (Planner.runPlanner decode tools t1 t2).2.length ≤ 1 ∧
    (∀ d2 : Planner.PlannerDecision,
      (Planner.runPlanner decode tools t1 t2).2 ≠ [] →
      Planner.parseDecision decode t2 = .ok d2 →
      ¬(d2.action = some ("respond") ∧ Planner.optStrFalsy d2.message = false) →
      (Planner.runPlanner decode tools t1 t2).1 =
        .error (.plannerError Planner.summaryFailMsg)) := by
  rcases h1 : Planner.parseDecision decode t1 with e | d
  · simp [Planner.runPlanner, h1]
  · by_cases ha : d.action = some ("respond")
    · by_cases hm : Planner.optStrFalsy d.message = true
      · simp [Planner.runPlanner, h1, ha, hm]
      · simp [Planner.runPlanner, h1, ha, hm]
    · by_cases hc : d.action = some ("call_tool")
      · by_cases hn : (Planner.optStrFalsy d.toolName || d.arguments.isNone) = true
        · simp [Planner.runPlanner, h1, ha, hc, hn]
        · rcases htn : d.toolName with _ | tn
          · exact absurd (by simp [Planner.optStrFalsy_none, htn]) hn
          · rcases hargs : d.arguments with _ | args
            · exact absurd (by simp [hargs]) hn
            · rw [htn, hargs] at hn
              simp only [Planner.optStrFalsy_some, Option.isNone_some, Bool.or_false,
                Bool.not_eq_true] at hn
              rcases hl : tools.lookup tn with _ | tool
              · simp [Planner.runPlanner, h1, ha, hc, htn, hargs, hn,
                  Planner.optStrFalsy_some, hl]
              · rcases h2 : Planner.parseDecision decode t2 with e2 | d2
                · simp [Planner.runPlanner, h1, ha, hc, htn, hargs, hn,
                    Planner.optStrFalsy_some, hl, h2]
                · by_cases hgood : d2.action = some ("respond") ∧
                    Planner.optStrFalsy d2.message = false
                  · refine ⟨?_, ?_⟩
                    · simp [Planner.runPlanner, h1, ha, hc, htn, hargs, hn,
                        Planner.optStrFalsy_some, hl, h2, hgood]
                    · intro d2x hne hp2 hbad
                      obtain rfl : d2 = d2x := Except.ok.inj hp2
                      exact absurd hgood hbad
                  · simp [Planner.runPlanner, h1, ha, hc, htn, hargs, hn,
                      Planner.optStrFalsy_some, hl, h2, hgood]
      · simp [Planner.runPlanner, h1, ha, hc]

/-- Closed instance of the C1 theorem: a run whose first decision calls tool
`t` and whose summarize round again decodes to `call_tool` fails with the
summary `PlannerError` (and its trace holds the single earlier invocation). -/
theorem planner_second_decision_must_respond_witness :
    (Planner.runPlanner Planner.wDecode Planner.wTools ("CALL") ("CALL")).1 =
      .error (.plannerError Planner.summaryFailMsg) :=
  (planner_second_decision_must_respond Planner.wDecode Planner.wTools ("CALL") ("CALL")).2
    ⟨some ("call_tool"), none, some ("t"), some [], ("CALL")⟩
    (by decide) rfl (by decide)

/-- C2: whenever the first parsed decision is `call_tool` with a missing or
empty tool name, missing arguments, or a tool name absent from the registry,
`run` fails with `PlannerError` and no tool is ever invoked (empty trace). -/
theorem planner_closed_world (decode : String → Option Planner.DecisionFields)
    (tools : List (String × Planner.Tool)) (t1 t2 : String)
    (d : Planner.PlannerDecision)
    (hparse : Planner.parseDecision decode t1 = .ok d)
    (hact : d.action = some ("call_tool"))
    (hbad : Planner.optStrFalsy d.toolName = true ∨ d.arguments = none ∨
      ∀ tn, d.toolName = some tn → tools.lookup tn = none) :
    (∃ msg, (Planner.runPlanner decode tools t1 t2).1 = .error (.plannerError msg)) ∧
    (Planner.runPlanner decode tools t1 t2).2 = [] := by
  suffices h : ∃ msg, Planner.runPlanner decode tools t1 t2 =
      (.error (.plannerError msg), []) by
    obtain ⟨msg, hm⟩ := h
    exact ⟨⟨msg, by rw [hm]⟩, by rw [hm]⟩
  rcases hbad with hb | hb | hb
  · exact ⟨Planner.toolCallIncompleteMsg, by simp [Planner.runPlanner, hparse, hact, hb]⟩
  · exact ⟨Planner.toolCallIncompleteMsg, by simp [Planner.runPlanner, hparse, hact, hb]⟩
  · by_cases hf : Planner.optStrFalsy d.toolName = true
    · exact ⟨Planner.toolCallIncompleteMsg, by simp [Planner.runPlanner, hparse, hact, hf]⟩
    · rcases htn : d.toolName with _ | tn
      · exact absurd (by simp [Planner.optStrFalsy_none, htn]) hf
      · rcases hargs : d.arguments with _ | args
        · exact ⟨Planner.toolCallIncompleteMsg,
            by simp [Planner.runPlanner, hparse, hact, hargs]⟩
        · rw [htn] at hf
          simp only [Planner.optStrFalsy_some, Bool.not_eq_true] at hf
          exact ⟨Planner.unknownToolMsg tn,
            by simp [Planner.runPlanner, hparse, hact, htn, hargs, hf,
              Planner.optStrFalsy_some, hb tn htn]⟩

/-- Closed instance of the C2 theorem: a `call_tool` decision naming tool `t`
against an empty registry fails without any invocation. -/
theorem planner_closed_world_witness :
    (∃ msg, (Planner.runPlanner Planner.wDecode [] ("CALL") ("x")).1 =
      .error (.plannerError msg)) ∧
    (Planner.runPlanner Planner.wDecode [] ("CALL") ("x")).2 = [] :=
  planner_closed_world Planner.wDecode [] ("CALL") ("x")
    ⟨some ("call_tool"), none, some ("t"), some [], ("CALL")⟩
    rfl rfl
    (Or.inr (Or.inr (fun tn htn => by
      obtain rfl := Option.some.inj htn
      rfl)))

/-- C3: whenever the gateway's response text, after the fenced-code-block
stripping of `_parse_decision`, fails to decode as JSON, `run` fails with
`MalformedPlannerResponse` carrying the raw response text, and no tool is
invoked. -/
theorem planner_malformed_response (decode : String → Option Planner.DecisionFields)
    (tools : List (String × Planner.Tool)) (t1 t2 : String)
    (h : decode (Planner.sanitizeContent t1) = none) :
    (Planner.runPlanner decode tools t1 t2).1 = .error (.malformed t1) ∧
    (Planner.runPlanner decode tools t1 t2).2 = [] := by
  have hp : Planner.parseDecision decode t1 = .error (.malformed t1) := by
    unfold Planner.parseDecision
    rw [h]
  simp [Planner.runPlanner, hp]

/-- Closed instance of the C3 theorem: a decoder rejecting everything makes
`run` fail with the malformed-response error carrying the raw text. -/
theorem planner_malformed_response_witness :
    (Planner.runPlanner (fun _ => none) [] ("not json") ("z")).1 =
      .error (.malformed ("not json")) ∧
    (Planner.runPlanner (fun _ => none) [] ("not json") ("z")).2 = [] :=
  planner_malformed_response (fun _ => none) [] ("not json") ("z") rfl

/-- C6: whenever the fallback reasoner extracts at least two numbers and the
first matching keyword is a division keyword (`divide` or `quotient`) with the
second extracted number zero, the computed result is positive infinity (and
the call still returns a `fallback`-tagged record rather than raising — the
embedding of `_fallback_reasoner` is a total function). -/
theorem fallback_divide_by_zero_posinf (p : String) (n0 n1 : ℚ) (rest : List ℚ)
    (kv : String × (ℚ → ℚ → Autonomous.FVal))
    (hnums : Autonomous.extractNumbers p = n0 :: n1 :: rest)
    (hz : n1 = 0)
    (hkv : Autonomous.matchedKeyword (Autonomous.lowerChars p) = some kv)
    (hdiv : kv.1 = ("divide") ∨ kv.1 = ("quotient")) :
    (Autonomous.fallbackReasoner p).result = some Autonomous.FVal.posInf ∧
    (Autonomous.fallbackReasoner p).source = ("fallback") := by
  have hmem := List.mem_of_find?_eq_some hkv
  have hfn := Autonomous.opTable_div_fn kv hmem hdiv
  subst hz
  unfold Autonomous.fallbackReasoner Autonomous.fallbackCore
  rw [hnums, hkv]
  simp [hfn, Autonomous.divFn]

/-- Closed instance of the C6 theorem: `divide 8 by 0` computes positive
infinity. -/
theorem fallback_divide_by_zero_posinf_witness :
    (Autonomous.fallbackReasoner ("divide 8 by 0")).result = some Autonomous.FVal.posInf ∧
    (Autonomous.fallbackReasoner ("divide 8 by 0")).source = ("fallback") :=
  fallback_divide_by_zero_posinf ("divide 8 by 0") 8 0 [] (("divide"), Autonomous.divFn)
    (by simp [Autonomous.extractNumbers, Autonomous.scanNums, Autonomous.scanAux,
      Autonomous.matchNumAt, Autonomous.matchUnsigned, Autonomous.tokVal, Autonomous.digitsToNat])
    rfl
    (by simp [Autonomous.matchedKeyword, Autonomous.opTable, Autonomous.lowerChars,
      containsSeq, startsWithSeq, List.find?])
    (Or.inl rfl)

/-- C7: the fallback reasoner selects the operation by substring search over
the fixed keyword table in declaration order, first match winning (the
characterization below: a keyword is selected exactly when it occurs in the
lowered text and no earlier table entry does); on the concrete problem
`If you triple 4 and subtract 5, what do you get?` only `subtract` matches,
and the returned record is tagged `fallback` with the result of `4 - 5`. -/
theorem fallback_first_match_in_table_order :
    (∀ (lowered : List Char) (kv : String × (ℚ → ℚ → Autonomous.FVal)),
        Autonomous.matchedKeyword lowered = some kv ↔
          containsSeq kv.1.toList lowered = true ∧
          ∃ pre post, Autonomous.opTable = pre ++ kv :: post ∧
            ∀ kv2 ∈ pre, containsSeq kv2.1.toList lowered = false) ∧
    Autonomous.fallbackReasoner ("If you triple 4 and subtract 5, what do you get?") =
      ⟨("subtract"), some (Autonomous.FVal.fin (4 - 5)), ("heuristic-fallback"), ("fallback")⟩ := by
  constructor
  · intro lowered kv
    unfold Autonomous.matchedKeyword
    rw [List.find?_eq_some]
    constructor
    · rintro ⟨h1, pre, post, heq, hall⟩
      exact ⟨h1, pre, post, heq, fun x hx => by simpa using hall x hx⟩
    · rintro ⟨h1, pre, post, heq, hall⟩
      exact ⟨h1, pre, post, heq, fun x hx => by simpa using hall x hx⟩
  · simp [Autonomous.fallbackReasoner, Autonomous.fallbackCore, Autonomous.extractNumbers,
      Autonomous.scanNums, Autonomous.scanAux, Autonomous.matchNumAt, Autonomous.matchUnsigned,
      Autonomous.tokVal, Autonomous.digitsToNat, Autonomous.matchedKeyword, Autonomous.opTable,
      Autonomous.lowerChars, containsSeq, startsWithSeq, List.find?, Autonomous.subFn]

/-- C9: with at least two extracted numbers, the fallback answer depends only
on the matched keyword and the first two numbers in text order; any further
numbers never influence the returned record. -/
theorem fallback_ignores_extra_numbers (p q : String)
    (hkw : (Autonomous.matchedKeyword (Autonomous.lowerChars p)).map Prod.fst =
      (Autonomous.matchedKeyword (Autonomous.lowerChars q)).map Prod.fst)
    (hp : 2 ≤ (Autonomous.extractNumbers p).length)
    (hq : 2 ≤ (Autonomous.extractNumbers q).length)
    (htake : (Autonomous.extractNumbers p).take 2 = (Autonomous.extractNumbers q).take 2) :
    Autonomous.fallbackReasoner p = Autonomous.fallbackReasoner q := by
  rcases hnp : Autonomous.extractNumbers p with _ | ⟨a, _ | ⟨b, tp⟩⟩ <;>
    rw [hnp] at hp htake <;> try simp at hp
  rcases hnq : Autonomous.extractNumbers q with _ | ⟨c, _ | ⟨d, tq⟩⟩ <;>
    rw [hnq] at hq htake <;> try simp at hq
  simp only [List.take, List.cons.injEq, and_true] at htake
  obtain ⟨rfl, rfl, -⟩ : a = c ∧ b = d ∧ True := by
    simpa using htake
  unfold Autonomous.fallbackReasoner Autonomous.fallbackCore
  rw [hnp, hnq]
  rcases hm : Autonomous.matchedKeyword (Autonomous.lowerChars p) with _ | kv <;>
    rcases hm2 : Autonomous.matchedKeyword (Autonomous.lowerChars q) with _ | kv2 <;>
    rw [hm, hm2] at hkw <;> simp at hkw ⊢
  have hl1 := Autonomous.opTable_lookup_of_mem kv (List.mem_of_find?_eq_some hm)
  have hl2 := Autonomous.opTable_lookup_of_mem kv2 (List.mem_of_find?_eq_some hm2)
  rw [hkw] at hl1
  have h22 : kv.2 = kv2.2 := Option.some.inj (hl1.symm.trans hl2)
  exact ⟨hkw, by rw [h22]⟩

/-- Closed instance of the C9 theorem: appending a third number does not
change the fallback answer. -/
theorem fallback_ignores_extra_numbers_witness :
    Autonomous.fallbackReasoner ("add 1 and 2") =
      Autonomous.fallbackReasoner ("add 1 and 2 and 30") :=
  fallback_ignores_extra_numbers ("add 1 and 2") ("add 1 and 2 and 30")
    (by simp [Autonomous.matchedKeyword, Autonomous.opTable, Autonomous.lowerChars,
      containsSeq, startsWithSeq, List.find?])
    (by simp [Autonomous.extractNumbers, Autonomous.scanNums, Autonomous.scanAux,
      Autonomous.matchNumAt, Autonomous.matchUnsigned])
    (by simp [Autonomous.extractNumbers, Autonomous.scanNums, Autonomous.scanAux,
      Autonomous.matchNumAt, Autonomous.matchUnsigned])
    (by simp [Autonomous.extractNumbers, Autonomous.scanNums, Autonomous.scanAux,
      Autonomous.matchNumAt, Autonomous.matchUnsigned, Autonomous.tokVal,
      Autonomous.digitsToNat])

/-- C4 counterexample: on the remote (gateway) path the source tag the code
sets is the literal `openai`, not `gateway` as the claim states — here at a
concrete run with a credential present and the plain-text gateway reply
`the answer is 4`, on which `json.loads` raises `JSONDecodeError`, the raw
text is wrapped, and `_chat_completion` returns normally with its constant
source tag. -/
theorem solve_source_gateway_counterexample :
    Autonomous.outcomeSource
      (Autonomous.runReasoning true (some ("the answer is 4"))
        (fun _ => Autonomous.JsonOutcome.decodeError) ("m") ("2 plus 2")) =
      ("openai") ∧
    ¬(("openai") : String) = ("gateway") := by
  exact ⟨rfl, by decide⟩

/-- C4 (amended): the returned record's source field is always set; it equals
`openai` (not `gateway`) whenever the answer came from the remote reasoning
service and `fallback` whenever the local heuristic produced it, and the
remote path is taken exactly when a credential is present, the request
completes, and post-processing does not raise (the reply is not valid JSON
for a non-dictionary). -/
theorem solve_source_tag_always_set (credential : Bool) (gatewayReply : Option String)
    (decode : String → Autonomous.JsonOutcome) (model problem : String) :
    (∀ r, Autonomous.runReasoning credential gatewayReply decode model problem =
      .remote r → r.source = ("openai")) ∧
    (∀ f, Autonomous.runReasoning credential gatewayReply decode model problem =
      .heuristic f → f.source = ("fallback")) ∧
    Autonomous.outcomeSource
        (Autonomous.runReasoning credential gatewayReply decode model problem) =
      (match gatewayReply with
        | some raw =>
          if credential && !(Autonomous.isNonObject (decode raw)) then ("openai")
          else ("fallback")
        | none => ("fallback")) := by
  refine ⟨?_, ?_, ?_⟩
  · intro r hr
    rcases gatewayReply with _ | raw
    · cases credential <;> simp [Autonomous.runReasoning] at hr
    · cases credential
      · simp [Autonomous.runReasoning] at hr
      · rcases hd : decode raw with _ | _ | pr <;>
          simp [Autonomous.runReasoning, Autonomous.chatCompletionPost, hd] at hr <;>
          rw [← hr] <;> rfl
  · intro f hf
    rcases gatewayReply with _ | raw
    · cases credential <;>
        simp [Autonomous.runReasoning] at hf <;> rw [← hf] <;> rfl
    · cases credential
      · simp [Autonomous.runReasoning] at hf
        rw [← hf]
        rfl
      · rcases hd : decode raw with _ | _ | pr <;>
          simp [Autonomous.runReasoning, Autonomous.chatCompletionPost, hd] at hf <;>
          rw [← hf] <;> rfl
  · rcases gatewayReply with _ | raw
    · cases credential <;>
        simp [Autonomous.runReasoning, Autonomous.outcomeSource, Autonomous.fallbackReasoner]
    · cases credential
      · simp [Autonomous.runReasoning, Autonomous.outcomeSource, Autonomous.fallbackReasoner]
      · rcases hd : decode raw with _ | _ | pr <;>
          simp [Autonomous.runReasoning, Autonomous.chatCompletionPost,
            Autonomous.assemblePayload, Autonomous.outcomeSource, Autonomous.fallbackReasoner,
            Autonomous.isNonObject, hd]

/-- A lookup misses when no entry's key is the one sought. -/
theorem lookup_eq_none_of_forall {β : Type} (k : String) (l : List (String × β))
    (h : ∀ p ∈ l, ¬(p.1 = k)) : l.lookup k = none := by
  induction l with
  | nil => rfl
  | cons p t ih =>
    obtain ⟨pk, pv⟩ := p
    have hp : (k == pk) = false :=
      beq_eq_false_iff_ne.mpr (fun he => h (pk, pv) (by simp) he.symm)
    have ht : List.lookup k t = none := ih (fun q hq => h q (by simp [hq]))
    simp [List.lookup, hp, ht]

set_option maxRecDepth 8000 in
/-- C10: blueprint lookup is case-insensitive — any letter-case variant of a
registered name resolves to that blueprint, any letter-case variant of an
alias resolves to the blueprint carrying it (names are indexed before
aliases, so an alias never shadows a canonical name), and a key matching no
name or alias (case-insensitively) fails with the `KeyError` listing the
sorted available keys; the listing and two sample lookups are pinned
concretely. -/
theorem blueprint_lookup_case_insensitive :
    (∀ (s : String) (bp : Servers.ServerBlueprint), bp ∈ Servers.serverBlueprints →
      pyLower s = pyLower bp.name → Servers.getBlueprint s = .ok bp) ∧
    (∀ (s a : String) (bp : Servers.ServerBlueprint), bp ∈ Servers.serverBlueprints →
      a ∈ bp.aliases → pyLower s = pyLower a → Servers.getBlueprint s = .ok bp) ∧
    (∀ s : String,
      (∀ bp ∈ Servers.serverBlueprints, ¬(pyLower s = pyLower bp.name) ∧
        ∀ a ∈ bp.aliases, ¬(pyLower s = pyLower a)) →
      Servers.getBlueprint s = .error (Servers.keyErrorMsg s)) ∧
    Servers.availableListing =
      ("autonomous, capability, co-reasoning, data, discovery, math-autonomous-reasoner, math-capability-registry, math-data-provider, math-prompt-helper, prompt, provider, reasoner") ∧
    Servers.getBlueprint ("DATA") = .ok Servers.dataBlueprint ∧
    Servers.getBlueprint ("Math-Prompt-Helper") = .ok Servers.promptBlueprint := by
  refine ⟨?_, ?_, ?_, by decide, rfl, rfl⟩
  · intro s bp hmem hlow
    simp only [Servers.serverBlueprints, List.mem_cons, List.not_mem_nil, or_false] at hmem
    unfold Servers.getBlueprint
    rcases hmem with rfl | rfl | rfl | rfl <;> rw [hlow] <;> rfl
  · intro s a bp hmem ha hlow
    simp only [Servers.serverBlueprints, List.mem_cons, List.not_mem_nil, or_false] at hmem
    unfold Servers.getBlueprint
    rcases hmem with rfl | rfl | rfl | rfl <;>
      simp only [Servers.capabilityBlueprint, Servers.dataBlueprint, Servers.promptBlueprint,
        Servers.autonomousBlueprint, List.mem_cons, List.not_mem_nil, or_false] at ha <;>
      rcases ha with rfl | rfl <;> rw [hlow] <;> rfl
  · intro s h
    have hcap := h Servers.capabilityBlueprint (by simp [Servers.serverBlueprints])
    have hdat := h Servers.dataBlueprint (by simp [Servers.serverBlueprints])
    have hpro := h Servers.promptBlueprint (by simp [Servers.serverBlueprints])
    have haut := h Servers.autonomousBlueprint (by simp [Servers.serverBlueprints])
    have hnone : Servers.blueprintIndex.lookup (pyLower s) = none := by
      apply lookup_eq_none_of_forall
      intro p hp
      have hidx : Servers.blueprintIndex =
          [(("math-capability-registry"), Servers.capabilityBlueprint),
           (("math-data-provider"), Servers.dataBlueprint),
           (("math-prompt-helper"), Servers.promptBlueprint),
           (("math-autonomous-reasoner"), Servers.autonomousBlueprint),
           (("capability"), Servers.capabilityBlueprint),
           (("discovery"), Servers.capabilityBlueprint),
           (("data"), Servers.dataBlueprint),
           (("provider"), Servers.dataBlueprint),
           (("prompt"), Servers.promptBlueprint),
           (("co-reasoning"), Servers.promptBlueprint),
           (("autonomous"), Servers.autonomousBlueprint),
           (("reasoner"), Servers.autonomousBlueprint)] := by rfl
      rw [hidx] at hp
      simp only [List.mem_cons, List.not_mem_nil, or_false] at hp
      rcases hp with rfl|rfl|rfl|rfl|rfl|rfl|rfl|rfl|rfl|rfl|rfl|rfl
      · exact fun he => hcap.1 he.symm
      · exact fun he => hdat.1 he.symm
      · exact fun he => hpro.1 he.symm
      · exact fun he => haut.1 he.symm
      · exact fun he => hcap.2 ("capability") (by simp [Servers.capabilityBlueprint]) he.symm
      · exact fun he => hcap.2 ("discovery") (by simp [Servers.capabilityBlueprint]) he.symm
      · exact fun he => hdat.2 ("data") (by simp [Servers.dataBlueprint]) he.symm
      · exact fun he => hdat.2 ("provider") (by simp [Servers.dataBlueprint]) he.symm
      · exact fun he => hpro.2 ("prompt") (by simp [Servers.promptBlueprint]) he.symm
      · exact fun he => hpro.2 ("co-reasoning") (by simp [Servers.promptBlueprint]) he.symm
      · exact fun he => haut.2 ("autonomous") (by simp [Servers.autonomousBlueprint]) he.symm
      · exact fun he => haut.2 ("reasoner") (by simp [Servers.autonomousBlueprint]) he.symm
    unfold Servers.getBlueprint
    rw [hnone]

end MCPMath
